import Mathlib

/-!
Shallow embedding of the Thrustmaster T500RS force-feedback driver
(hid-tmt500rs.c and its headers): the protocol encoder, the effect state
table, the scheduler tick and the external entry points, together with
theorems checking the specification's claims against this embedding.

Machine bytes are modelled as Nat values (always < 256 where the source
stores them in a u8); the unsigned-long jiffies arithmetic of the
scheduler is modelled modulo 2^64.
-/

/-- Linux errno EINVAL (invalid argument); the driver returns -EINVAL. -/
def EINVAL : Int := 22

/-- Linux errno ENOMEM (out of memory); the driver returns -ENOMEM. -/
def ENOMEM : Int := 12

/-! Protocol command codes, from hid-tmt500rs.h. -/

def T500RS_CMD_UPLOAD_EFFECT : Nat := 0x01
def T500RS_CMD_MODIFY_EFFECT : Nat := 0x02
def T500RS_CMD_SET_ENVELOPE : Nat := 0x02
def T500RS_CMD_SET_CONSTANT : Nat := 0x03
def T500RS_CMD_SET_PERIODIC : Nat := 0x04
def T500RS_CMD_SET_CONDITION : Nat := 0x05

/-- From hid-tmt500rs.h: T500RS_CMD_START_EFFECT is 0x41; the .c file refers
to this command as T500RS_CMD_PLAY, whose defining header is not under src/. -/
def T500RS_CMD_PLAY : Nat := 0x41

/-- From hid-tmt500rs.h: T500RS_CMD_STOP_EFFECT is 0x41; the .c file refers
to this command as T500RS_CMD_STOP, whose defining header is not under src/. -/
def T500RS_CMD_STOP : Nat := 0x41

/-- Modelled from the spec: the numeric value of T500RS_CMD_UPDATE is not
present under src/ (the header defining it is missing); the value is a
placeholder and no theorem below depends on it, only on the structure of
the commands that carry it. -/
def T500RS_CMD_UPDATE : Nat := 0x60

/-- Modelled from the spec: the numeric value of T500RS_CMD_SET_RAMP is not
present under src/; the value is a placeholder and no theorem below depends
on it. -/
def T500RS_CMD_SET_RAMP : Nat := 0x62

/-- Modelled from the spec: the numeric value of T500RS_WEIGHT_UPDATE is not
present under src/; the value is a placeholder and no theorem below depends
on it. -/
def T500RS_WEIGHT_UPDATE : Nat := 0x61

/-! Effect type codes, from hid-tmt500rs.h. -/

def T500RS_EFFECT_CONSTANT : Nat := 0x00
def T500RS_EFFECT_SPRING : Nat := 0x40
def T500RS_EFFECT_FRICTION : Nat := 0x41
def T500RS_EFFECT_DAMPER : Nat := 0x41
def T500RS_EFFECT_INERTIA : Nat := 0x41
def T500RS_EFFECT_SQUARE : Nat := 0x20
def T500RS_EFFECT_TRIANGLE : Nat := 0x21
def T500RS_EFFECT_SINE : Nat := 0x22
def T500RS_EFFECT_SAWTOOTH_UP : Nat := 0x23
def T500RS_EFFECT_SAWTOOTH_DOWN : Nat := 0x24
def T500RS_EFFECT_RAMP : Nat := 0x24
def T500RS_EFFECT_AUTOCENTER : Nat := 0x06
def T500RS_EFFECT_INERTIA_2 : Nat := 0x07
def T500RS_EFFECT_FRICTION_2 : Nat := 0x0c
def T500RS_EFFECT_DAMPER_2 : Nat := 0x0d
def T500RS_EFFECT_COMBINE : Nat := 0x0f

/-- Maximum number of concurrently loaded effects (hid-tmt500rs.h). -/
def T500RS_MAX_EFFECTS : Nat := 16

/-- Modelled from the spec: T500RS_MAX_COMBINED_EFFECTS is used by
t500rs_upload_combined but its defining header is not under src/; both the
spec (a fixed maximum, e.g. 16) and the test-tool header (effect_ids[16],
max 16 effects) give 16. -/
def T500RS_MAX_COMBINED_EFFECTS : Nat := 16

/-! Linux input-subsystem force-feedback effect type constants
    (linux/input.h, external collaborator). -/

def FF_PERIODIC : Nat := 0x51
def FF_CONSTANT : Nat := 0x52
def FF_SPRING : Nat := 0x53
def FF_FRICTION : Nat := 0x54
def FF_DAMPER : Nat := 0x55
def FF_INERTIA : Nat := 0x56
def FF_RAMP : Nat := 0x57
def FF_SQUARE : Nat := 0x58
def FF_TRIANGLE : Nat := 0x59
def FF_SINE : Nat := 0x5a
def FF_SAW_UP : Nat := 0x5b
def FF_SAW_DOWN : Nat := 0x5c

/-- Modulus of the C unsigned long arithmetic used for jiffies timestamps. -/
def ULONG_MOD : Nat := 2 ^ 64

/-- Unsigned-long subtraction (jiffies_now - start_time) as performed by the
scheduler, i.e. subtraction modulo 2^64. -/
def jiffiesSub (a b : Nat) : Nat := (a + (ULONG_MOD - b % ULONG_MOD)) % ULONG_MOD

/-! Generic effect descriptor (struct ff_effect, linux/input.h), shallowly
embedded. The C union is embedded as a product: the source never relies on
members aliasing each other, it only reads the member matching (or, for
inertia, fixed as) the effect type. -/

/-- Envelope of struct ff_envelope. -/
structure FfEnvelope where
  attack_length : Nat
  attack_level : Nat
  fade_length : Nat
  fade_level : Nat
deriving DecidableEq, Inhabited

/-- Fields of struct ff_constant_effect. -/
structure FfConstantEffect where
  level : Nat
  envelope : FfEnvelope
deriving DecidableEq, Inhabited

/-- Fields of struct ff_ramp_effect. -/
structure FfRampEffect where
  start_level : Nat
  end_level : Nat
  envelope : FfEnvelope
deriving DecidableEq, Inhabited

/-- Fields of struct ff_periodic_effect (custom-data pointer omitted,
never read by the driver). -/
structure FfPeriodicEffect where
  waveform : Nat
  period : Nat
  magnitude : Nat
  offset : Nat
  phase : Nat
  envelope : FfEnvelope
deriving DecidableEq, Inhabited

/-- Fields of struct ff_condition_effect; 16-bit coefficients kept as their
unsigned bit patterns (the source right-shifts them into u8 values). -/
structure FfConditionEffect where
  right_saturation : Nat
  left_saturation : Nat
  right_coeff : Nat
  left_coeff : Nat
  deadband : Nat
  center : Nat
deriving DecidableEq, Inhabited

/-- Fields of struct ff_replay. -/
structure FfReplay where
  length : Nat
  delay : Nat
deriving DecidableEq, Inhabited

/-- The union member of struct ff_effect, embedded as a product (the driver
reads condition[0] only, so a single condition member suffices alongside a
second one mirroring condition[1]). -/
structure FfEffectUnion where
  constant : FfConstantEffect
  ramp : FfRampEffect
  periodic : FfPeriodicEffect
  condition0 : FfConditionEffect
  condition1 : FfConditionEffect
deriving DecidableEq, Inhabited

/-- Struct ff_effect (trigger omitted, never read by the driver). -/
structure FfEffect where
  type : Nat
  id : Nat
  direction : Nat
  replay : FfReplay
  u : FfEffectUnion
deriving DecidableEq, Inhabited

/-- Modelled from the spec: the kernel-side struct t500rs_combined_effect
read by t500rs_upload_combined and t500rs_upload_weight is not under src/
(only the test tool's variant without clamp bounds is); fields follow the
spec's Combined-Effect Record: num_effects, effect_ids, weights,
dynamic_weights, and the per-constituent min_weights/max_weights clamp
bounds. The weight_params curve descriptors are never read by the encoder
source and are omitted. -/
structure T500rsCombinedEffect where
  num_effects : Nat
  effect_ids : List Nat
  weights : List Nat
  dynamic_weights : Bool
  min_weights : List Nat
  max_weights : List Nat
deriving DecidableEq, Inhabited

/-- Modelled from the spec: struct t500rs_weight_update read by
t500rs_upload_weight is not under src/; fields follow its uses there and the
spec's RequestWeightUpdate (target constituent id, new weight, optional
smooth transition with a step count). -/
structure T500rsWeightUpdate where
  effect_id : Nat
  new_weight : Nat
  smooth_transition : Bool
  transition_steps : Nat
deriving DecidableEq, Inhabited

/-- Fields of struct t500rs_inertia as used by t500rs_upload_inertia; its
defining header is not under src/. -/
structure T500rsInertia where
  strength : Nat
  damping : Nat
  resistance : Nat
deriving DecidableEq, Inhabited

/-- Per-slot effect state, struct t500rs_effect_state. The unsigned-long
flags word is embedded as one named Bool per bit: queue_upload is bit
FF_EFFECT_QUEUE_UPLOAD (0), queue_start bit 1, queue_stop bit 2, playing
bit FF_EFFECT_PLAYING (3), queue_update bit 4. The combined field is read
by the .c file; it is absent from the struct declaration available under
src/, so it is modelled from the spec as an optional owned record. -/
structure T500rsEffectState where
  effect : FfEffect
  old : FfEffect
  old_set : Bool
  queue_upload : Bool
  queue_start : Bool
  queue_stop : Bool
  playing : Bool
  queue_update : Bool
  start_time : Nat
  count : Nat
  combined : Option T500rsCombinedEffect
deriving DecidableEq, Inhabited

/-! Transport layer. A send depends on two external conditions: whether the
kzalloc of the command buffer succeeds and whether the device lookup
(t500rs_get_device) succeeds. Both are inputs of the embedding. -/

/-- External conditions of one transport send. -/
structure SendEnv where
  allocOk : Bool
  deviceOk : Bool
deriving DecidableEq, Inhabited

/-- One command handed to the transport: the command id passed to
t500rs_send_effect and the params byte buffer. -/
structure Command where
  command_id : Nat
  params : List Nat
deriving DecidableEq, Inhabited

/-- Embeds t500rs_send_int: if the device lookup fails return -1; otherwise
copy the buffer into the report field, fire hid_hw_request (whose outcome is
not observed), and return 0. -/
def t500rs_send_int (deviceOk : Bool) : Int :=
  if deviceOk then 0 else -1

/-- Embeds t500rs_send_effect: kzalloc the buffer (failure gives -ENOMEM),
prepend the fixed header, and hand it to t500rs_send_int. A nonzero result
is an error to every caller, so the result is an Except: ok carries the
command as emitted, error carries the nonzero return value. -/
def t500rs_send_effect (env : SendEnv) (command_id : Nat) (params : List Nat) :
    Except Int Command :=
  if env.allocOk = false then .error (-ENOMEM)
  else
    let r := t500rs_send_int env.deviceOk
    if r < 0 then .error r else .ok ⟨command_id, params⟩

/-- Embeds t500rs_upload_constant: three sends, the envelope no-op
parameters, the constant-force level, then the generic upload trailer. -/
def t500rs_upload_constant (env : SendEnv) (state : T500rsEffectState) :
    Except Int (List Command) := do
  let c1 ← t500rs_send_effect env T500RS_CMD_SET_ENVELOPE
    [T500RS_CMD_SET_ENVELOPE, 0x1c, 0x00, 0x00, 0x00, 0x00, 0x00, 0x00, 0x00]
  let c2 ← t500rs_send_effect env T500RS_CMD_SET_CONSTANT
    [T500RS_CMD_SET_CONSTANT, 0x0e, 0x00, state.effect.u.constant.level]
  let c3 ← t500rs_send_effect env T500RS_CMD_UPLOAD_EFFECT
    [T500RS_CMD_UPLOAD_EFFECT, 0x00, T500RS_EFFECT_CONSTANT, 0x40, 0x17, 0x25,
     0x00, 0xff, 0xff, 0x0e, 0x00, 0x1c, 0x00]
  return [c1, c2, c3]

/-- Embeds t500rs_upload_ramp: envelope no-op, ramp start/end levels, then
the generic upload trailer. -/
def t500rs_upload_ramp (env : SendEnv) (state : T500rsEffectState) :
    Except Int (List Command) := do
  let c1 ← t500rs_send_effect env T500RS_CMD_SET_ENVELOPE
    [T500RS_CMD_SET_ENVELOPE, 0x1c, 0x00, 0x00, 0x00, 0x00, 0x00, 0x00, 0x00]
  let c2 ← t500rs_send_effect env T500RS_CMD_SET_RAMP
    [T500RS_CMD_SET_RAMP, 0x0e, 0x00, state.effect.u.ramp.start_level,
     state.effect.u.ramp.end_level]
  let c3 ← t500rs_send_effect env T500RS_CMD_UPLOAD_EFFECT
    [T500RS_CMD_UPLOAD_EFFECT, 0x00, T500RS_EFFECT_RAMP, 0x40, 0x17, 0x25,
     0x00, 0xff, 0xff, 0x0e, 0x00, 0x1c, 0x00]
  return [c1, c2, c3]

/-- The waveform-mapping switch at the head of t500rs_upload_periodic:
FF_SINE/FF_SQUARE/FF_TRIANGLE/FF_SAW_UP/FF_SAW_DOWN map to the device
waveform codes; any other type returns -EINVAL. -/
def t500rs_waveform (t : Nat) : Except Int Nat :=
  if t = FF_SINE then .ok T500RS_EFFECT_SINE
  else if t = FF_SQUARE then .ok T500RS_EFFECT_SQUARE
  else if t = FF_TRIANGLE then .ok T500RS_EFFECT_TRIANGLE
  else if t = FF_SAW_UP then .ok T500RS_EFFECT_SAWTOOTH_UP
  else if t = FF_SAW_DOWN then .ok T500RS_EFFECT_SAWTOOTH_DOWN
  else .error (-EINVAL)

/-- Embeds t500rs_upload_periodic: map the effect type to the device
waveform code (default is -EINVAL), then send envelope no-op, periodic
parameters, and the generic upload trailer. -/
def t500rs_upload_periodic (env : SendEnv) (state : T500rsEffectState) :
    Except Int (List Command) := do
  let waveform ← t500rs_waveform state.effect.type
  let c1 ← t500rs_send_effect env T500RS_CMD_SET_ENVELOPE
    [T500RS_CMD_SET_ENVELOPE, 0x1c, 0x00, 0x00, 0x00, 0x00, 0x00, 0x00, 0x00]
  let c2 ← t500rs_send_effect env T500RS_CMD_SET_PERIODIC
    [T500RS_CMD_SET_PERIODIC, 0x0e, 0x00, 0x00, 0x00, 0x00, 0xe8, 0x03]
  let c3 ← t500rs_send_effect env T500RS_CMD_UPLOAD_EFFECT
    [T500RS_CMD_UPLOAD_EFFECT, 0x00, waveform, 0x40, 0x17, 0x25,
     0x00, 0xff, 0xff, 0x0e, 0x00, 0x1c, 0x00]
  return [c1, c2, c3]

/-- Embeds t500rs_upload_condition: condition parameters (fixed default
values), envelope no-op, then the generic upload trailer carrying the given
effect type code. -/
def t500rs_upload_condition (env : SendEnv) (_state : T500rsEffectState)
    (effect_type : Nat) : Except Int (List Command) := do
  let c1 ← t500rs_send_effect env T500RS_CMD_SET_CONDITION
    [T500RS_CMD_SET_CONDITION, 0x0e, 0x00, 0x64, 0x64, 0x00, 0x00, 0x00, 0x00,
     0x64, 0x64]
  let c2 ← t500rs_send_effect env T500RS_CMD_SET_ENVELOPE
    [T500RS_CMD_SET_ENVELOPE, 0x1c, 0x00, 0x00, 0x00, 0x00, 0x00, 0x00, 0x00]
  let c3 ← t500rs_send_effect env T500RS_CMD_UPLOAD_EFFECT
    [T500RS_CMD_UPLOAD_EFFECT, 0x00, effect_type, 0x40, 0x17, 0x25,
     0x00, 0xff, 0xff, 0x0e, 0x00, 0x1c, 0x00]
  return [c1, c2, c3]

/-- Embeds t500rs_upload_condition_extended: a single 15-byte update command
built from the descriptor's condition[0] coefficients (each right-shifted
into a byte) plus fixed extended factors selected by the effect type. -/
def t500rs_upload_condition_extended (env : SendEnv) (state : T500rsEffectState)
    (effect_type : Nat) : Except Int (List Command) := do
  let cond := state.effect.u.condition0
  let right_coeff := cond.right_coeff >>> 8
  let left_coeff := cond.left_coeff >>> 8
  let right_sat := cond.right_saturation >>> 9
  let left_sat := cond.left_saturation >>> 9
  let dead_band := cond.deadband >>> 9
  let center := cond.center >>> 9
  let velocity_factor :=
    if effect_type = T500RS_EFFECT_DAMPER_2 then 0x64
    else if effect_type = T500RS_EFFECT_FRICTION_2 then 0x32 else 0
  let acceleration_factor := if effect_type = T500RS_EFFECT_DAMPER_2 then 0x32 else 0
  let position_factor := if effect_type = T500RS_EFFECT_FRICTION_2 then 0x64 else 0
  let c ← t500rs_send_effect env T500RS_CMD_UPDATE
    [effect_type, 0x00, 0x00, 0x00, 0x05, 0x0e,
     right_coeff, left_coeff, right_sat, left_sat, dead_band, center,
     velocity_factor, acceleration_factor, position_factor]
  return [c]

/-- One iteration of the packing loop of t500rs_upload_combined: write
effect_ids[i] at params[8 + i*3] and weights[i] at params[9 + i*3], and,
when dynamic weights are enabled, the packed min/max nibble byte at
params[10 + i*3]. -/
def combinedFillStep (combined : T500rsCombinedEffect) (params : List Nat)
    (i : Nat) : List Nat :=
  let params := params.set (8 + i * 3) (combined.effect_ids.getD i 0)
  let params := params.set (9 + i * 3) (combined.weights.getD i 0)
  if combined.dynamic_weights then
    params.set (10 + i * 3)
      (((combined.min_weights.getD i 0) &&& 0xF0) |||
       (((combined.max_weights.getD i 0) >>> 4) &&& 0x0F))
  else params

/-- The packing loop of t500rs_upload_combined, i running from 0 to
num_effects - 1. -/
def combinedFill (combined : T500rsCombinedEffect) (params : List Nat) : List Nat :=
  (List.range combined.num_effects).foldl (combinedFillStep combined) params

/-- Embeds t500rs_upload_combined: reject a missing record, an empty
constituent list, or more than the maximum with -EINVAL before any buffer is
built; otherwise fill the zero-initialised 8 + 16*3 byte array (header, then
the packing loop) and send its first 8 + n*3 (dynamic weights) or 8 + n*2
(static) bytes as one update command. -/
def t500rs_upload_combined (env : SendEnv) (state : T500rsEffectState) :
    Except Int (List Command) :=
  match state.combined with
  | none => .error (-EINVAL)
  | some combined =>
    if combined.num_effects = 0 ∨ T500RS_MAX_COMBINED_EFFECTS < combined.num_effects then
      .error (-EINVAL)
    else
      let params := List.replicate (8 + T500RS_MAX_COMBINED_EFFECTS * 3) 0
      let params := params.set 0 T500RS_EFFECT_COMBINE
      let params := params.set 1 0x00
      let params := params.set 2 0x00
      let params := params.set 3 0x00
      let params := params.set 4 0x05
      let params := params.set 5 0x0e
      let params := params.set 6 combined.num_effects
      let params := params.set 7 (if combined.dynamic_weights then 0x01 else 0x00)
      let params := combinedFill combined params
      match t500rs_send_effect env T500RS_CMD_UPDATE
          (params.take (8 + combined.num_effects *
            (if combined.dynamic_weights then 3 else 2))) with
      | .error e => .error e
      | .ok c => .ok [c]

/-- Embeds t500rs_upload_inertia: one fixed 8-byte update command carrying
strength and damping. -/
def t500rs_upload_inertia (env : SendEnv) (params : T500rsInertia) :
    Except Int (List Command) := do
  let c ← t500rs_send_effect env T500RS_CMD_UPDATE
    [T500RS_EFFECT_INERTIA, 0x00, 0x00, 0x00, 0x03, 0x0e,
     params.strength, params.damping]
  return [c]

/-- Embeds t500rs_upload_envelope: envelope no-op parameters followed by the
generic upload trailer carrying the descriptor's raw type byte. -/
def t500rs_upload_envelope (env : SendEnv) (state : T500rsEffectState) :
    Except Int (List Command) := do
  let c1 ← t500rs_send_effect env T500RS_CMD_SET_ENVELOPE
    [T500RS_CMD_SET_ENVELOPE, 0x1c, 0x00, 0x00, 0x00, 0x00, 0x00, 0x00, 0x00]
  let c2 ← t500rs_send_effect env T500RS_CMD_UPLOAD_EFFECT
    [T500RS_CMD_UPLOAD_EFFECT, 0x00, state.effect.type, 0x40, 0x17, 0x25,
     0x00, 0xff, 0xff, 0x0e, 0x00, 0x1c, 0x00]
  return [c1, c2]

/-- Modelled from the spec: t500rs_modify_duration is called by
t500rs_upload_effect when the replay length is nonzero but its definition is
not under src/; per the spec it is one further duration-configuration send
appended after the type-specific commands (payload layout unspecified). -/
def t500rs_modify_duration (env : SendEnv) (state : T500rsEffectState) :
    Except Int Command :=
  t500rs_send_effect env T500RS_CMD_MODIFY_EFFECT
    [T500RS_CMD_MODIFY_EFFECT, state.effect.replay.length % 256,
     state.effect.replay.length / 256 % 256]

/-- Embeds the switch of t500rs_upload_effect. The outer Except is an early
return from the whole function (the constant and ramp cases return as soon
as a stage fails, and an unknown type returns -EINVAL immediately); the
inner Except is the ret value the remaining cases fall through with to the
duration step. -/
def t500rs_upload_effect_switch (env : SendEnv) (state : T500rsEffectState) :
    Except Int (Except Int (List Command)) :=
  if state.effect.type = FF_CONSTANT then
    match t500rs_upload_constant env state with
    | .error e => .error e
    | .ok cs =>
      if state.effect.u.constant.envelope.attack_length ≠ 0 ∨
         state.effect.u.constant.envelope.fade_length ≠ 0 then
        match t500rs_upload_envelope env state with
        | .error e => .error e
        | .ok es => .ok (.ok (cs ++ es))
      else .ok (.ok cs)
  else if state.effect.type = FF_RAMP then
    match t500rs_upload_ramp env state with
    | .error e => .error e
    | .ok cs =>
      if state.effect.u.ramp.envelope.attack_length ≠ 0 ∨
         state.effect.u.ramp.envelope.fade_length ≠ 0 then
        match t500rs_upload_envelope env state with
        | .error e => .error e
        | .ok es => .ok (.ok (cs ++ es))
      else .ok (.ok cs)
  else if state.effect.type = FF_SPRING then
    .ok (t500rs_upload_condition env state T500RS_EFFECT_SPRING)
  else if state.effect.type = FF_DAMPER then
    .ok (t500rs_upload_condition_extended env state T500RS_EFFECT_DAMPER_2)
  else if state.effect.type = FF_FRICTION then
    .ok (t500rs_upload_condition_extended env state T500RS_EFFECT_FRICTION_2)
  else if state.effect.type = FF_INERTIA then
    .ok (t500rs_upload_inertia env
      ⟨state.effect.u.condition0.right_coeff >>> 8,
       state.effect.u.condition0.left_coeff >>> 8,
       state.effect.u.condition0.center >>> 8⟩)
  else if state.effect.type = FF_PERIODIC then
    .ok (t500rs_upload_periodic env state)
  else .error (-EINVAL)

/-- Embeds t500rs_upload_effect: a combined slot is dispatched to
t500rs_upload_combined before the switch; otherwise run the switch and, when
the replay length is nonzero, overwrite ret with the result of
t500rs_modify_duration (as the source does, even when the fall-through ret
was an error). -/
def t500rs_upload_effect (env : SendEnv) (state : T500rsEffectState) :
    Except Int (List Command) :=
  if state.combined.isSome then t500rs_upload_combined env state
  else
    match t500rs_upload_effect_switch env state with
    | .error e => .error e
    | .ok ret =>
      if state.effect.replay.length ≠ 0 then
        match t500rs_modify_duration env state with
        | .error e => .error e
        | .ok d => .ok ((ret.toOption.getD []) ++ [d])
      else ret

example :
    t500rs_upload_constant ⟨true, true⟩ default =
      .ok [⟨0x02, [0x02, 0x1c, 0, 0, 0, 0, 0, 0, 0]⟩,
           ⟨0x03, [0x03, 0x0e, 0, 0]⟩,
           ⟨0x01, [0x01, 0, 0, 0x40, 0x17, 0x25, 0, 0xff, 0xff, 0x0e, 0, 0x1c, 0]⟩] := by
  rfl

/-- The search loop of t500rs_upload_weight: the first index i below
num_effects with effect_ids[i] equal to the target, if any. -/
def findEffectIdx (effect_ids : List Nat) (target : Nat) (num_effects : Nat) :
    Option Nat :=
  (List.range num_effects).find? (fun i => effect_ids.getD i 0 = target)

/-- Embeds t500rs_upload_weight. It returns -EINVAL when the slot has no
combined record, dynamic weights are disabled, the target constituent id is
not found, or the new weight falls outside the constituent's min/max clamp
bounds, in each case without touching the record. Otherwise the source
writes the new weight into combined->weights[found] and THEN returns the
result of the send: the pair below is (return value, resulting slot state),
and the resulting state carries the committed weight whatever the send
result is, exactly as the source does. -/
def t500rs_upload_weight (env : SendEnv) (state : T500rsEffectState)
    (update : T500rsWeightUpdate) : Except Int Command × T500rsEffectState :=
  match state.combined with
  | none => (.error (-EINVAL), state)
  | some combined =>
    if combined.dynamic_weights = false then (.error (-EINVAL), state)
    else
      match findEffectIdx combined.effect_ids update.effect_id combined.num_effects with
      | none => (.error (-EINVAL), state)
      | some found =>
        if update.new_weight < combined.min_weights.getD found 0 ∨
           combined.max_weights.getD found 0 < update.new_weight then
          (.error (-EINVAL), state)
        else
          let params := [T500RS_WEIGHT_UPDATE, 0x00, 0x00, 0x00,
            update.effect_id, update.new_weight,
            (if update.smooth_transition then update.transition_steps else 0), 0x00]
          let combined := { combined with
            weights := combined.weights.set found update.new_weight }
          (t500rs_send_effect env T500RS_CMD_UPDATE params,
           { state with combined := some combined })

/-- Embeds t500rs_play_effect: the fixed 8-byte play command. -/
def t500rs_play_effect (env : SendEnv) (_state : T500rsEffectState) :
    Except Int Command :=
  t500rs_send_effect env T500RS_CMD_PLAY
    [T500RS_EFFECT_CONSTANT, 0x00, 0x00, 0x00, T500RS_CMD_PLAY, 0x00, 0x41, 0x01]

/-- Embeds t500rs_stop_effect: the fixed 8-byte stop command. -/
def t500rs_stop_effect (env : SendEnv) (_state : T500rsEffectState) :
    Except Int Command :=
  t500rs_send_effect env T500RS_CMD_STOP
    [T500RS_EFFECT_CONSTANT, 0x00, 0x00, 0x00, T500RS_CMD_PLAY, 0x00, 0x00, 0x01]

/-- Embeds the expiry step of the t500rs_timer_helper loop body: when the
slot is PLAYING with a nonzero replay length whose duration has elapsed
since start_time, clear PLAYING and the stale QUEUE_UPDATE bit, decrement
count if nonzero, and set QUEUE_START when count remains nonzero. -/
def timerExpirePhase (jiffies_now : Nat) (s : T500rsEffectState) :
    T500rsEffectState :=
  if s.playing = true ∧ s.effect.replay.length ≠ 0 then
    if s.effect.replay.length ≤ jiffiesSub jiffies_now s.start_time then
      if s.count ≠ 0 then
        if s.count - 1 ≠ 0 then
          { s with playing := false, queue_update := false,
                   count := s.count - 1, queue_start := true }
        else
          { s with playing := false, queue_update := false, count := s.count - 1 }
      else
        { s with playing := false, queue_update := false }
    else s
  else s

/-- Embeds the QUEUE_UPLOAD step of the t500rs_timer_helper loop body:
clear the bit and run the upload pipeline; a nonzero result is returned
from the whole tick. -/
def timerUploadPhase (env : SendEnv) (s : T500rsEffectState) :
    Except Int (T500rsEffectState × List Command) :=
  if s.queue_upload = true then
    let s1 : T500rsEffectState := { s with queue_upload := false }
    match t500rs_upload_effect env s1 with
    | .error e => .error e
    | .ok cs => .ok (s1, cs)
  else .ok (s, [])

/-- Embeds the QUEUE_START step of the t500rs_timer_helper loop body:
clear QUEUE_START, set PLAYING, send the play command; a nonzero result is
returned from the whole tick. The source records no timestamp here. -/
def timerStartPhase (env : SendEnv) (s : T500rsEffectState) :
    Except Int (T500rsEffectState × List Command) :=
  if s.queue_start = true then
    let s1 : T500rsEffectState := { s with queue_start := false, playing := true }
    match t500rs_play_effect env s1 with
    | .error e => .error e
    | .ok c => .ok (s1, [c])
  else .ok (s, [])

/-- Embeds the QUEUE_STOP step of the t500rs_timer_helper loop body:
clear QUEUE_STOP, clear PLAYING, send the stop command; a nonzero result is
returned from the whole tick. -/
def timerStopPhase (env : SendEnv) (s : T500rsEffectState) :
    Except Int (T500rsEffectState × List Command) :=
  if s.queue_stop = true then
    let s1 : T500rsEffectState := { s with queue_stop := false, playing := false }
    match t500rs_stop_effect env s1 with
    | .error e => .error e
    | .ok c => .ok (s1, [c])
  else .ok (s, [])

/-- One slot's pass of t500rs_timer_helper: expiry, queued upload, queued
start, queued stop, in the source's order; ok carries the final slot state
and the commands sent for it this tick. -/
def t500rs_timer_helper_slot (env : SendEnv) (jiffies_now : Nat)
    (s : T500rsEffectState) : Except Int (T500rsEffectState × List Command) :=
  match timerUploadPhase env (timerExpirePhase jiffies_now s) with
  | .error e => .error e
  | .ok (s1, cs1) =>
    match timerStartPhase env s1 with
    | .error e => .error e
    | .ok (s2, cs2) =>
      match timerStopPhase env s2 with
      | .error e => .error e
      | .ok (s3, cs3) => .ok (s3, cs1 ++ cs2 ++ cs3)

/-- Embeds the whole t500rs_timer_helper: run each slot in order (an error
aborts the remaining slots and is returned), and report the maximum
remaining count across the slots processed, which the timer uses to decide
whether to re-arm. -/
def t500rs_timer_helper (env : SendEnv) (jiffies_now : Nat) :
    List T500rsEffectState → Except Int (List T500rsEffectState × Nat)
  | [] => .ok ([], 0)
  | s :: rest =>
    match t500rs_timer_helper_slot env jiffies_now s with
    | .error e => .error e
    | .ok (s1, _) =>
      match t500rs_timer_helper env jiffies_now rest with
      | .error e => .error e
      | .ok (rest1, mc) =>
        .ok (s1 :: rest1, if mc < s1.count then s1.count else mc)

/-- Iterates the per-slot scheduler tick over a list of tick timestamps
(one scheduler pass per element, in order), the composition the spec's
repeat-count property quantifies over. -/
def runTicks (env : SendEnv) (times : List Nat) (s : T500rsEffectState) :
    Except Int T500rsEffectState :=
  match times with
  | [] => .ok s
  | t :: ts =>
    match t500rs_timer_helper_slot env t s with
    | .error e => .error e
    | .ok (s1, _) => runTicks env ts s1

/-- Embeds the t500rs_upload entry point: fail with -1 when the device
lookup fails; reject a periodic descriptor with zero period with -EINVAL
before touching any slot; otherwise store the descriptor in the slot
indexed by the effect id, record the previous descriptor and set
QUEUE_UPDATE when one is supplied (clearing it otherwise), and set
QUEUE_UPLOAD. -/
def t500rs_upload (deviceOk : Bool) (effect : FfEffect) (old : Option FfEffect)
    (states : List T500rsEffectState) : Int × List T500rsEffectState :=
  if deviceOk = false then (-1, states)
  else if effect.type = FF_PERIODIC ∧ effect.u.periodic.period = 0 then
    (-EINVAL, states)
  else
    let st := states.getD effect.id default
    let st := { st with effect := effect }
    let st :=
      match old with
      | some o => { st with old := o, queue_update := true }
      | none => { st with queue_update := false }
    let st := { st with queue_upload := true }
    (0, states.set effect.id st)

/-- Embeds the t500rs_play entry point (RequestPlaybackChange): fail with -1
when the device lookup fails; for a positive value, store it as the repeat
count, record start_time now, set QUEUE_START and clear any pending
QUEUE_STOP; otherwise set QUEUE_STOP (leaving QUEUE_START as it is). The
always-false address test on &state->effect and the hrtimer arming are not
part of the slot-state model. -/
def t500rs_play (deviceOk : Bool) (jiffies_now : Nat) (value : Int)
    (s : T500rsEffectState) : Int × T500rsEffectState :=
  if deviceOk = false then (-1, s)
  else if 0 < value then
    (0, { s with
          count := value.toNat, start_time := jiffies_now,
          queue_start := true, queue_stop := false })
  else
    (0, { s with queue_stop := true })

/-! Concrete inputs used by the scenario and counterexample theorems. -/

/-- Constant-force descriptor with level 0x40, zero envelope and zero replay
length, in an otherwise empty slot. -/
def c9State : T500rsEffectState :=
  { (default : T500rsEffectState) with
    effect := { (default : FfEffect) with
      type := FF_CONSTANT,
      u := { (default : FfEffectUnion) with
             constant := { level := 0x40, envelope := default } } } }

/-- A dynamic combined record with one constituent (id 2, weight 10,
bounds [0, 100]). -/
def c1Combined : T500rsCombinedEffect :=
  { num_effects := 1, effect_ids := [2], weights := [10],
    dynamic_weights := true, min_weights := [0], max_weights := [100] }

/-- Slot holding c1Combined. -/
def c1State : T500rsEffectState :=
  { (default : T500rsEffectState) with combined := some c1Combined }

/-- Weight update of constituent 2 to the in-bounds weight 50. -/
def c1Update : T500rsWeightUpdate :=
  { effect_id := 2, new_weight := 50, smooth_transition := false,
    transition_steps := 0 }

/-- A static (dynamic weights disabled) combined record with two
constituents: ids 1 and 2, weights 10 and 20. -/
def c6Combined : T500rsCombinedEffect :=
  { num_effects := 2, effect_ids := [1, 2], weights := [10, 20],
    dynamic_weights := false, min_weights := [0, 0], max_weights := [100, 100] }

/-- Slot holding c6Combined. -/
def c6State : T500rsEffectState :=
  { (default : T500rsEffectState) with combined := some c6Combined }

/-- Slot with a pending QUEUE_START and start_time 5. -/
def c2State : T500rsEffectState :=
  { (default : T500rsEffectState) with queue_start := true, start_time := 5 }

/-- Slot with a pending QUEUE_START. -/
def c3State : T500rsEffectState :=
  { (default : T500rsEffectState) with queue_start := true }

/-- C9: uploading a constant-force descriptor with level 0x40, zero envelope
and zero replay length emits exactly three command buffers, in order: the
envelope no-op command, the constant-level command whose payload carries
0x40, and the upload-trailer command whose payload carries the constant
effect-type code. -/
theorem C9_constant_upload_emits_three_commands :
    t500rs_upload_effect ⟨true, true⟩ c9State =
      .ok [⟨T500RS_CMD_SET_ENVELOPE,
            [T500RS_CMD_SET_ENVELOPE, 0x1c, 0x00, 0x00, 0x00, 0x00, 0x00, 0x00, 0x00]⟩,
           ⟨T500RS_CMD_SET_CONSTANT,
            [T500RS_CMD_SET_CONSTANT, 0x0e, 0x00, 0x40]⟩,
           ⟨T500RS_CMD_UPLOAD_EFFECT,
            [T500RS_CMD_UPLOAD_EFFECT, 0x00, T500RS_EFFECT_CONSTANT, 0x40, 0x17,
             0x25, 0x00, 0xff, 0xff, 0x0e, 0x00, 0x1c, 0x00]⟩] := by
  rfl

/-- C1: the claim requires the stored weight to be unchanged when the send of
a weight update fails; the source instead commits the new weight into the
record before the send result is known. At a failing send (allocation
failure) the call returns -ENOMEM, yet the stored weight of the target
constituent has changed from 10 to 50. -/
theorem C1_weight_committed_before_failed_send :
    (t500rs_upload_weight ⟨false, true⟩ c1State c1Update).1 = .error (-ENOMEM) ∧
    (t500rs_upload_weight ⟨false, true⟩ c1State c1Update).2.combined.map
      T500rsCombinedEffect.weights = some [50] ∧
    c1State.combined.map T500rsCombinedEffect.weights = some [10] := by
  exact ⟨rfl, rfl, rfl⟩

/-- C6: with dynamic weights disabled the claim requires the payload after
the 8-byte header to be the n constituents' (id, weight) pairs in order; the
source fills the buffer at a stride of 3 bytes per constituent but sends
only 8 + 2n bytes, so for two constituents (ids 1, 2, weights 10, 20) the
payload tail is [1, 10, 0, 2] instead of the claimed [1, 10, 2, 20]. -/
theorem C6_static_combined_payload_garbled :
    t500rs_upload_combined ⟨true, true⟩ c6State =
      .ok [⟨T500RS_CMD_UPDATE,
            [T500RS_EFFECT_COMBINE, 0x00, 0x00, 0x00, 0x05, 0x0e, 2, 0x00,
             1, 10, 0, 2]⟩] ∧
    [T500RS_EFFECT_COMBINE, 0x00, 0x00, 0x00, 0x05, 0x0e, 2, 0x00, 1, 10, 0, 2] ≠
      [T500RS_EFFECT_COMBINE, 0x00, 0x00, 0x00, 0x05, 0x0e, 2, 0x00] ++
        [1, 10, 2, 20] := by
  exact ⟨rfl, by decide⟩

/-- C2 counterexample: a scheduler tick at time 100 on a slot with
QUEUE_START pending and start_time 5 clears QUEUE_START, sets PLAYING and
sends the play command, but leaves start_time at 5: the tick does not record
start_time = now as the claim states. -/
theorem C2_counterexample_start_time_not_recorded :
    t500rs_timer_helper_slot ⟨true, true⟩ 100 c2State =
      .ok ({ c2State with queue_start := false, playing := true },
           [⟨T500RS_CMD_PLAY,
             [T500RS_EFFECT_CONSTANT, 0x00, 0x00, 0x00, T500RS_CMD_PLAY, 0x00,
              0x41, 0x01]⟩]) ∧
    ({ c2State with queue_start := false, playing := true }).start_time = 5 ∧
    (5 : Nat) ≠ 100 := by
  exact ⟨rfl, rfl, by decide⟩

/-- C3 counterexample: a playback-change request with value 0 on a slot with
QUEUE_START pending returns success but leaves QUEUE_START set: the request
does not clear the pending start as the claim states. -/
theorem C3_counterexample_queue_start_left_set :
    (t500rs_play true 0 0 c3State).1 = 0 ∧
    (t500rs_play true 0 0 c3State).2.queue_start = true ∧
    (t500rs_play true 0 0 c3State).2.queue_stop = true := by
  exact ⟨rfl, rfl, rfl⟩

/-! Helper lemmas shared by the claim theorems. -/

/-- A send with successful allocation and device lookup succeeds and emits
its command unchanged. -/
theorem t500rs_send_effect_ok (cid : Nat) (ps : List Nat) :
    t500rs_send_effect ⟨true, true⟩ cid ps = .ok ⟨cid, ps⟩ := rfl

/-- One packing-loop iteration preserves the buffer length. -/
theorem combinedFillStep_length (c : T500rsCombinedEffect) (ps : List Nat)
    (i : Nat) : (combinedFillStep c ps i).length = ps.length := by
  unfold combinedFillStep
  split <;> simp

/-- The packing loop preserves the buffer length. -/
theorem combinedFill_length (c : T500rsCombinedEffect) (ps : List Nat) :
    (combinedFill c ps).length = ps.length := by
  unfold combinedFill
  generalize List.range c.num_effects = rng
  induction rng generalizing ps with
  | nil => rfl
  | cons a l ih => rw [List.foldl_cons, ih, combinedFillStep_length]

/-- Fields of a slot that the expiry step never changes, and the fact that
it never clears a pending QUEUE_START. -/
theorem timerExpirePhase_invariants (now : Nat) (s : T500rsEffectState) :
    (timerExpirePhase now s).queue_upload = s.queue_upload ∧
    (timerExpirePhase now s).queue_stop = s.queue_stop ∧
    (timerExpirePhase now s).start_time = s.start_time ∧
    (timerExpirePhase now s).effect = s.effect ∧
    (timerExpirePhase now s).combined = s.combined ∧
    (s.queue_start = true → (timerExpirePhase now s).queue_start = true) := by
  unfold timerExpirePhase
  split
  · split
    · split
      · split <;> simp
      · simp
    · simp
  · simp

/-- C10: the upload entry point rejects a periodic-type descriptor whose
period is zero with -EINVAL and returns the state table unchanged, so the
slot's descriptor, previous descriptor and flags are untouched. -/
theorem C10_zero_period_periodic_rejected
    (effect : FfEffect) (old : Option FfEffect)
    (states : List T500rsEffectState)
    (ht : effect.type = FF_PERIODIC) (hp : effect.u.periodic.period = 0) :
    t500rs_upload true effect old states = (-EINVAL, states) := by
  unfold t500rs_upload
  rw [if_neg (by simp), if_pos ⟨ht, hp⟩]

/-- Witness for C10 at a concrete zero-period periodic descriptor. -/
theorem C10_witness :
    t500rs_upload true { (default : FfEffect) with type := FF_PERIODIC } none
      [default] = (-EINVAL, [default]) :=
  C10_zero_period_periodic_rejected
    { (default : FfEffect) with type := FF_PERIODIC } none [default] rfl rfl

/-- C8: a weight update whose target constituent id is not found in the
combined record, or whose new weight lies outside the target's min/max
clamp bounds, returns -EINVAL and leaves the slot (hence every stored
weight) unchanged. -/
theorem C8_weight_update_rejected_without_mutation
    (env : SendEnv) (state : T500rsEffectState)
    (combined : T500rsCombinedEffect) (update : T500rsWeightUpdate)
    (hc : state.combined = some combined)
    (hdyn : combined.dynamic_weights = true)
    (hrej :
      findEffectIdx combined.effect_ids update.effect_id combined.num_effects
        = none ∨
      ∃ i, findEffectIdx combined.effect_ids update.effect_id
            combined.num_effects = some i ∧
        (update.new_weight < combined.min_weights.getD i 0 ∨
         combined.max_weights.getD i 0 < update.new_weight)) :
    t500rs_upload_weight env state update = (.error (-EINVAL), state) := by
  unfold t500rs_upload_weight
  rw [hc]
  dsimp only
  rw [if_neg (by simp [hdyn])]
  rcases hrej with h | ⟨i, hi, hb⟩
  · rw [h]
  · rw [hi]
    dsimp only
    rw [if_pos hb]

/-- A dynamic combined record used by the C8 witness: one constituent of
id 7, weight 30, bounds [20, 60]. -/
def c8Combined : T500rsCombinedEffect :=
  { num_effects := 1, effect_ids := [7], weights := [30],
    dynamic_weights := true, min_weights := [20], max_weights := [60] }

/-- Slot holding c8Combined. -/
def c8State : T500rsEffectState :=
  { (default : T500rsEffectState) with combined := some c8Combined }

/-- Witness for C8: updating the absent constituent id 9 is rejected with
the record untouched. -/
theorem C8_witness :
    t500rs_upload_weight ⟨true, true⟩ c8State
      { effect_id := 9, new_weight := 30, smooth_transition := false,
        transition_steps := 0 } = (.error (-EINVAL), c8State) :=
  C8_weight_update_rejected_without_mutation ⟨true, true⟩ c8State c8Combined
    { effect_id := 9, new_weight := 30, smooth_transition := false,
      transition_steps := 0 } rfl rfl (Or.inl (by decide))

/-- C5: encoding a combined effect with n constituents yields one command
whose payload is exactly 8 + 2n bytes long with dynamic weights disabled
and 8 + 3n bytes with them enabled, while n = 0 or n above the maximum of
16 is rejected with -EINVAL for every transport environment, i.e. before
any buffer is built or send attempted. -/
theorem C5_combined_encoding_size
    (state : T500rsEffectState) (combined : T500rsCombinedEffect)
    (hc : state.combined = some combined) :
    ((combined.num_effects = 0 ∨
        T500RS_MAX_COMBINED_EFFECTS < combined.num_effects) →
      ∀ env : SendEnv, t500rs_upload_combined env state = .error (-EINVAL)) ∧
    (combined.num_effects ≠ 0 →
      combined.num_effects ≤ T500RS_MAX_COMBINED_EFFECTS →
      ∃ c : Command, t500rs_upload_combined ⟨true, true⟩ state = .ok [c] ∧
        c.params.length = 8 + combined.num_effects *
          (if combined.dynamic_weights then 3 else 2)) := by
  constructor
  · intro h env
    unfold t500rs_upload_combined
    rw [hc]
    dsimp only
    rw [if_pos h]
  · intro h1 h2
    unfold t500rs_upload_combined
    rw [hc]
    dsimp only
    rw [if_neg (by push_neg; exact ⟨h1, h2⟩)]
    rw [t500rs_send_effect_ok]
    refine ⟨_, rfl, ?_⟩
    have h3 : combined.num_effects ≤ 16 := h2
    rcases hd : combined.dynamic_weights <;>
      simp [hd, T500RS_MAX_COMBINED_EFFECTS, List.length_take,
        combinedFill_length] <;>
      omega

/-- A dynamic combined record used by the C5 witness: ids 3 and 4, weights
50 and 60, full bounds. -/
def c5Combined : T500rsCombinedEffect :=
  { num_effects := 2, effect_ids := [3, 4], weights := [50, 60],
    dynamic_weights := true, min_weights := [0, 0], max_weights := [255, 255] }

/-- Slot holding c5Combined. -/
def c5State : T500rsEffectState :=
  { (default : T500rsEffectState) with combined := some c5Combined }

/-- Witness for C5: the dynamic two-constituent record encodes into one
command of payload length 8 + 2*3 = 14. -/
theorem C5_witness :
    ∃ c : Command, t500rs_upload_combined ⟨true, true⟩ c5State = .ok [c] ∧
      c.params.length = 8 + c5Combined.num_effects *
        (if c5Combined.dynamic_weights then 3 else 2) :=
  (C5_combined_encoding_size c5State c5Combined rfl).2 (by decide) (by decide)

/-- When a PLAYING slot with a nonzero, elapsed duration and a nonzero count
is examined by the expiry step, PLAYING and QUEUE_UPDATE are cleared, the
count is decremented, and QUEUE_START is set exactly when the count is still
nonzero. -/
theorem timerExpirePhase_elapsed (now : Nat) (s : T500rsEffectState)
    (hplay : s.playing = true) (hlen : s.effect.replay.length ≠ 0)
    (hel : s.effect.replay.length ≤ jiffiesSub now s.start_time)
    (hcount : s.count ≠ 0) :
    timerExpirePhase now s =
      if s.count - 1 ≠ 0 then
        { s with playing := false, queue_update := false,
                 count := s.count - 1, queue_start := true }
      else
        { s with playing := false, queue_update := false,
                 count := s.count - 1 } := by
  unfold timerExpirePhase
  rw [if_pos ⟨hplay, hlen⟩, if_pos hel, if_pos hcount]

/-- A slot whose state after the expiry step has no queued upload or stop
but a queued start: the tick consumes QUEUE_START, sets PLAYING and sends
the play command. -/
theorem slot_step_start_only (now : Nat) (s : T500rsEffectState)
    (hqu : (timerExpirePhase now s).queue_upload = false)
    (hqs : (timerExpirePhase now s).queue_start = true)
    (hstop : (timerExpirePhase now s).queue_stop = false) :
    t500rs_timer_helper_slot ⟨true, true⟩ now s =
      .ok ({ timerExpirePhase now s with queue_start := false, playing := true },
           [⟨T500RS_CMD_PLAY, [T500RS_EFFECT_CONSTANT, 0x00, 0x00, 0x00,
              T500RS_CMD_PLAY, 0x00, 0x41, 0x01]⟩]) := by
  have hu : timerUploadPhase ⟨true, true⟩ (timerExpirePhase now s) =
      .ok (timerExpirePhase now s, []) := by
    unfold timerUploadPhase
    rw [if_neg (by simp [hqu])]
  have hs1 : timerStartPhase ⟨true, true⟩ (timerExpirePhase now s) =
      .ok ({ timerExpirePhase now s with queue_start := false, playing := true },
           [⟨T500RS_CMD_PLAY, [T500RS_EFFECT_CONSTANT, 0x00, 0x00, 0x00,
              T500RS_CMD_PLAY, 0x00, 0x41, 0x01]⟩]) := by
    unfold timerStartPhase
    rw [if_pos hqs]
    rfl
  have hp : timerStopPhase ⟨true, true⟩
      { timerExpirePhase now s with queue_start := false, playing := true } =
      .ok ({ timerExpirePhase now s with queue_start := false, playing := true },
           []) := by
    unfold timerStopPhase
    rw [if_neg (by simp [hstop])]
  unfold t500rs_timer_helper_slot
  rw [hu]
  dsimp only
  rw [hs1]
  dsimp only
  rw [hp]
  rfl

/-- A slot whose state after the expiry step has no queued upload, start or
stop: the tick changes nothing and sends nothing for it. -/
theorem slot_step_idle (now : Nat) (s : T500rsEffectState)
    (hqu : (timerExpirePhase now s).queue_upload = false)
    (hqs : (timerExpirePhase now s).queue_start = false)
    (hstop : (timerExpirePhase now s).queue_stop = false) :
    t500rs_timer_helper_slot ⟨true, true⟩ now s =
      .ok (timerExpirePhase now s, []) := by
  have hu : timerUploadPhase ⟨true, true⟩ (timerExpirePhase now s) =
      .ok (timerExpirePhase now s, []) := by
    unfold timerUploadPhase
    rw [if_neg (by simp [hqu])]
  have hs1 : timerStartPhase ⟨true, true⟩ (timerExpirePhase now s) =
      .ok (timerExpirePhase now s, []) := by
    unfold timerStartPhase
    rw [if_neg (by simp [hqs])]
  have hp : timerStopPhase ⟨true, true⟩ (timerExpirePhase now s) =
      .ok (timerExpirePhase now s, []) := by
    unfold timerStopPhase
    rw [if_neg (by simp [hstop])]
  unfold t500rs_timer_helper_slot
  rw [hu]
  dsimp only
  rw [hs1]
  dsimp only
  rw [hp]
  rfl

/-- A slot whose state after the expiry step has no queued upload but a
queued stop: whatever the start flag, the tick ends with the slot not
PLAYING and with both queue flags clear. -/
theorem slot_step_stop_clears (now : Nat) (s : T500rsEffectState)
    (hqu : (timerExpirePhase now s).queue_upload = false)
    (hstop : (timerExpirePhase now s).queue_stop = true) :
    ∃ s2 cmds, t500rs_timer_helper_slot ⟨true, true⟩ now s = .ok (s2, cmds) ∧
      s2.playing = false ∧ s2.queue_start = false ∧ s2.queue_stop = false := by
  have hu : timerUploadPhase ⟨true, true⟩ (timerExpirePhase now s) =
      .ok (timerExpirePhase now s, []) := by
    unfold timerUploadPhase
    rw [if_neg (by simp [hqu])]
  by_cases hqs : (timerExpirePhase now s).queue_start = true
  · have hs1 : timerStartPhase ⟨true, true⟩ (timerExpirePhase now s) =
        .ok ({ timerExpirePhase now s with queue_start := false, playing := true },
             [⟨T500RS_CMD_PLAY, [T500RS_EFFECT_CONSTANT, 0x00, 0x00, 0x00,
                T500RS_CMD_PLAY, 0x00, 0x41, 0x01]⟩]) := by
      unfold timerStartPhase
      rw [if_pos hqs]
      rfl
    have hp : timerStopPhase ⟨true, true⟩
        { timerExpirePhase now s with queue_start := false, playing := true } =
        .ok ({ timerExpirePhase now s with
               queue_start := false, playing := false, queue_stop := false },
             [⟨T500RS_CMD_STOP, [T500RS_EFFECT_CONSTANT, 0x00, 0x00, 0x00,
                T500RS_CMD_PLAY, 0x00, 0x00, 0x01]⟩]) := by
      unfold timerStopPhase
      rw [if_pos (by simp [hstop])]
      rfl
    refine ⟨{ timerExpirePhase now s with
              queue_start := false, playing := false, queue_stop := false },
            [⟨T500RS_CMD_PLAY, [T500RS_EFFECT_CONSTANT, 0x00, 0x00, 0x00,
               T500RS_CMD_PLAY, 0x00, 0x41, 0x01]⟩,
             ⟨T500RS_CMD_STOP, [T500RS_EFFECT_CONSTANT, 0x00, 0x00, 0x00,
               T500RS_CMD_PLAY, 0x00, 0x00, 0x01]⟩], ?_, rfl, rfl, rfl⟩
    unfold t500rs_timer_helper_slot
    rw [hu]
    dsimp only
    rw [hs1]
    dsimp only
    rw [hp]
    rfl
  · have hqs0 : (timerExpirePhase now s).queue_start = false := by
      simp only [Bool.not_eq_true] at hqs
      exact hqs
    have hs1 : timerStartPhase ⟨true, true⟩ (timerExpirePhase now s) =
        .ok (timerExpirePhase now s, []) := by
      unfold timerStartPhase
      rw [if_neg (by simp [hqs0])]
    have hp : timerStopPhase ⟨true, true⟩ (timerExpirePhase now s) =
        .ok ({ timerExpirePhase now s with queue_stop := false, playing := false },
             [⟨T500RS_CMD_STOP, [T500RS_EFFECT_CONSTANT, 0x00, 0x00, 0x00,
                T500RS_CMD_PLAY, 0x00, 0x00, 0x01]⟩]) := by
      unfold timerStopPhase
      rw [if_pos hstop]
      rfl
    refine ⟨{ timerExpirePhase now s with queue_stop := false, playing := false },
            [⟨T500RS_CMD_STOP, [T500RS_EFFECT_CONSTANT, 0x00, 0x00, 0x00,
               T500RS_CMD_PLAY, 0x00, 0x00, 0x01]⟩], ?_, rfl, ?_, rfl⟩
    · unfold t500rs_timer_helper_slot
      rw [hu]
      dsimp only
      rw [hs1]
      dsimp only
      rw [hp]
      rfl
    · exact hqs0

/-- C2 (amended): on a scheduler tick, a slot with QUEUE_START pending and
no pending stop or upload has QUEUE_START cleared, PLAYING set, and the play
command sent; start_time is NOT modified by the tick (the source records it
in the playback-change entry point instead, so the claim's
"records start_time = now" does not hold of the tick). -/
theorem C2_tick_queue_start_amended (now : Nat) (s : T500rsEffectState)
    (hqs : s.queue_start = true) (hstop : s.queue_stop = false)
    (hqu : s.queue_upload = false) :
    ∃ s1, t500rs_timer_helper_slot ⟨true, true⟩ now s =
      .ok (s1, [⟨T500RS_CMD_PLAY, [T500RS_EFFECT_CONSTANT, 0x00, 0x00, 0x00,
                  T500RS_CMD_PLAY, 0x00, 0x41, 0x01]⟩]) ∧
      s1.queue_start = false ∧ s1.playing = true ∧
      s1.start_time = s.start_time := by
  obtain ⟨h1, h2, h3, _, _, h6⟩ := timerExpirePhase_invariants now s
  have hstep := slot_step_start_only now s (by rw [h1]; exact hqu) (h6 hqs)
    (by rw [h2]; exact hstop)
  exact ⟨_, hstep, rfl, rfl, h3⟩

/-- Witness for the amended C2 at a concrete queued-start slot. -/
theorem C2_witness :
    ∃ s1, t500rs_timer_helper_slot ⟨true, true⟩ 100 c2State =
      .ok (s1, [⟨T500RS_CMD_PLAY, [T500RS_EFFECT_CONSTANT, 0x00, 0x00, 0x00,
                  T500RS_CMD_PLAY, 0x00, 0x41, 0x01]⟩]) ∧
      s1.queue_start = false ∧ s1.playing = true ∧
      s1.start_time = c2State.start_time :=
  C2_tick_queue_start_amended 100 c2State rfl rfl rfl

/-- C3 (amended): a playback-change request with a non-positive repeat value
sets QUEUE_STOP without clearing a pending QUEUE_START; on the next
scheduler tick the queued start (if any) is processed before the queued
stop, so the slot ends that tick not PLAYING with both queue flags clear. -/
theorem C3_stop_request_amended (now tick_time : Nat) (value : Int)
    (s : T500rsEffectState) (hv : value ≤ 0) (hqu : s.queue_upload = false) :
    (t500rs_play true now value s).1 = 0 ∧
    (t500rs_play true now value s).2.queue_stop = true ∧
    (t500rs_play true now value s).2.queue_start = s.queue_start ∧
    ∃ s2 cmds, t500rs_timer_helper_slot ⟨true, true⟩ tick_time
        (t500rs_play true now value s).2 = .ok (s2, cmds) ∧
      s2.playing = false ∧ s2.queue_start = false ∧ s2.queue_stop = false := by
  have hplay : t500rs_play true now value s = (0, { s with queue_stop := true }) := by
    unfold t500rs_play
    rw [if_neg (by simp), if_neg (by omega)]
  rw [hplay]
  refine ⟨rfl, rfl, rfl, ?_⟩
  obtain ⟨h1, h2, _, _, _, _⟩ :=
    timerExpirePhase_invariants tick_time { s with queue_stop := true }
  exact slot_step_stop_clears tick_time { s with queue_stop := true }
    (by rw [h1]; exact hqu) (by rw [h2])

/-- Witness for the amended C3 at a concrete slot with a pending start. -/
theorem C3_witness :
    (t500rs_play true 0 0 c3State).1 = 0 ∧
    (t500rs_play true 0 0 c3State).2.queue_stop = true ∧
    (t500rs_play true 0 0 c3State).2.queue_start = c3State.queue_start ∧
    ∃ s2 cmds, t500rs_timer_helper_slot ⟨true, true⟩ 8
        (t500rs_play true 0 0 c3State).2 = .ok (s2, cmds) ∧
      s2.playing = false ∧ s2.queue_start = false ∧ s2.queue_stop = false :=
  C3_stop_request_amended 0 8 0 c3State (by decide) rfl

/-- One elapsed cycle of a PLAYING slot whose count will stay nonzero: the
tick decrements the count, immediately restarts the effect (QUEUE_START
consumed, PLAYING set again, play command sent). -/
theorem slot_step_repeat (now : Nat) (s : T500rsEffectState)
    (hplay : s.playing = true) (hlen : s.effect.replay.length ≠ 0)
    (hel : s.effect.replay.length ≤ jiffiesSub now s.start_time)
    (hqs : s.queue_start = false) (hstop : s.queue_stop = false)
    (hqu : s.queue_upload = false) (hcount : s.count ≠ 0)
    (hc2 : s.count - 1 ≠ 0) :
    t500rs_timer_helper_slot ⟨true, true⟩ now s =
      .ok ({ s with
             playing := true, queue_update := false,
             count := s.count - 1, queue_start := false },
           [⟨T500RS_CMD_PLAY, [T500RS_EFFECT_CONSTANT, 0x00, 0x00, 0x00,
              T500RS_CMD_PLAY, 0x00, 0x41, 0x01]⟩]) := by
  have hE : timerExpirePhase now s =
      { s with
        playing := false, queue_update := false,
        count := s.count - 1, queue_start := true } := by
    rw [timerExpirePhase_elapsed now s hplay hlen hel hcount, if_pos hc2]
  have hstep := slot_step_start_only now s (by rw [hE]; exact hqu)
    (by rw [hE]) (by rw [hE]; exact hstop)
  rw [hstep, hE]

/-- One elapsed cycle of a PLAYING slot whose count reaches zero: the tick
clears PLAYING and sets no QUEUE_START, leaving the slot stopped. -/
theorem slot_step_last_cycle (now : Nat) (s : T500rsEffectState)
    (hplay : s.playing = true) (hlen : s.effect.replay.length ≠ 0)
    (hel : s.effect.replay.length ≤ jiffiesSub now s.start_time)
    (hqs : s.queue_start = false) (hstop : s.queue_stop = false)
    (hqu : s.queue_upload = false) (hcount : s.count ≠ 0)
    (hc2 : s.count - 1 = 0) :
    t500rs_timer_helper_slot ⟨true, true⟩ now s =
      .ok ({ s with
             playing := false, queue_update := false,
             count := s.count - 1 }, []) := by
  have hE : timerExpirePhase now s =
      { s with
        playing := false, queue_update := false,
        count := s.count - 1 } := by
    rw [timerExpirePhase_elapsed now s hplay hlen hel hcount,
      if_neg (by simp [hc2])]
  have hstep := slot_step_idle now s (by rw [hE]; exact hqu)
    (by rw [hE]; exact hqs) (by rw [hE]; exact hstop)
  rw [hstep, hE]

/-- C7: a PLAYING slot with nonzero duration and repeat count k > 0, given k
scheduler passes each observing an elapsed duration and no intervening
playback-change request, ends with PLAYING clear and no pending
QUEUE_START. -/
theorem C7_repeat_count_exhaustion
    (k : Nat) (times : List Nat) (s : T500rsEffectState)
    (hk : 0 < k) (hcount : s.count = k)
    (hplay : s.playing = true) (hlen : s.effect.replay.length ≠ 0)
    (hqs : s.queue_start = false) (hstop : s.queue_stop = false)
    (hqu : s.queue_upload = false)
    (htimes : times.length = k)
    (hel : ∀ t ∈ times, s.effect.replay.length ≤ jiffiesSub t s.start_time) :
    ∃ s1, runTicks ⟨true, true⟩ times s = .ok s1 ∧
      s1.playing = false ∧ s1.queue_start = false := by
  induction k generalizing times s with
  | zero => omega
  | succ n ih =>
    cases times with
    | nil => simp at htimes
    | cons t ts =>
      have htel : s.effect.replay.length ≤ jiffiesSub t s.start_time :=
        hel t (by simp)
      have hcount0 : s.count ≠ 0 := by omega
      by_cases hc2 : s.count - 1 ≠ 0
      · have hstep := slot_step_repeat t s hplay hlen htel hqs hstop hqu
          hcount0 hc2
        have hrun : runTicks ⟨true, true⟩ (t :: ts) s =
            runTicks ⟨true, true⟩ ts
              { s with
                playing := true, queue_update := false,
                count := s.count - 1, queue_start := false } := by
          have h0 : runTicks ⟨true, true⟩ (t :: ts) s =
              match t500rs_timer_helper_slot ⟨true, true⟩ t s with
              | .error e => .error e
              | .ok (s1, _) => runTicks ⟨true, true⟩ ts s1 := rfl
          rw [h0, hstep]
        rw [hrun]
        apply ih
        · omega
        · show s.count - 1 = n
          omega
        · rfl
        · exact hlen
        · rfl
        · exact hstop
        · exact hqu
        · simpa using htimes
        · intro t2 ht2
          exact hel t2 (by simp [ht2])
      · have hc2eq : s.count - 1 = 0 := by omega
        have hstep := slot_step_last_cycle t s hplay hlen htel hqs hstop hqu
          hcount0 hc2eq
        have hts : ts = [] := by
          have : ts.length = 0 := by
            have := htimes
            simp at this
            omega
          exact List.length_eq_zero.mp this
        subst hts
        refine ⟨{ s with
                  playing := false, queue_update := false,
                  count := s.count - 1 }, ?_, rfl, hqs⟩
        have h0 : runTicks ⟨true, true⟩ [t] s =
            match t500rs_timer_helper_slot ⟨true, true⟩ t s with
            | .error e => .error e
            | .ok (s1, _) => runTicks ⟨true, true⟩ [] s1 := rfl
        rw [h0, hstep]
        rfl

/-- A slot with PLAYING set, duration 10, repeat count 2 and start_time 0,
used by the C7 witness. -/
def c7State : T500rsEffectState :=
  { (default : T500rsEffectState) with
    playing := true, count := 2,
    effect := { (default : FfEffect) with replay := { length := 10, delay := 0 } } }

/-- Witness for C7: two elapsed scheduler passes exhaust a repeat count of
two and leave the slot stopped. -/
theorem C7_witness :
    ∃ s1, runTicks ⟨true, true⟩ [100, 108] c7State = .ok s1 ∧
      s1.playing = false ∧ s1.queue_start = false :=
  C7_repeat_count_exhaustion 2 [100, 108] c7State (by decide) rfl rfl
    (by decide) rfl rfl rfl rfl (by decide)

/-- Classification used by the C4 development: a result that is a success,
an invalid-argument error, or an allocation error - never the transport
error -1 of a failed device lookup. -/
def OkOr {α : Type} (e : Except Int α) : Prop :=
  (∃ x, e = .ok x) ∨ e = .error (-EINVAL) ∨ e = .error (-ENOMEM)

/-- A success result satisfies the classification. -/
theorem okOr_ok {α : Type} (x : α) : OkOr (Except.ok x) := Or.inl ⟨x, rfl⟩

/-- The classification is preserved by sequencing. -/
theorem okOr_bind {α β : Type} (e : Except Int α) (f : α → Except Int β)
    (he : OkOr e) (hf : ∀ x, OkOr (f x)) : OkOr (e >>= f) := by
  rcases he with ⟨x, hx⟩ | hx | hx <;> rw [hx]
  · exact hf x
  · exact Or.inr (Or.inl rfl)
  · exact Or.inr (Or.inr rfl)

/-- With the device lookup succeeding, a send either succeeds or fails with
the allocation error, never the transport error. -/
theorem send_effect_okOr (a : Bool) (cid : Nat) (ps : List Nat) :
    OkOr (t500rs_send_effect ⟨a, true⟩ cid ps) := by
  cases a
  · exact Or.inr (Or.inr rfl)
  · exact Or.inl ⟨_, rfl⟩

/-- Classification of the constant-force encoder pipeline. -/
theorem upload_constant_okOr (a : Bool) (s : T500rsEffectState) :
    OkOr (t500rs_upload_constant ⟨a, true⟩ s) := by
  unfold t500rs_upload_constant
  exact okOr_bind _ _ (send_effect_okOr _ _ _) fun c1 =>
    okOr_bind _ _ (send_effect_okOr _ _ _) fun c2 =>
    okOr_bind _ _ (send_effect_okOr _ _ _) fun c3 => okOr_ok _

/-- Classification of the ramp encoder pipeline. -/
theorem upload_ramp_okOr (a : Bool) (s : T500rsEffectState) :
    OkOr (t500rs_upload_ramp ⟨a, true⟩ s) := by
  unfold t500rs_upload_ramp
  exact okOr_bind _ _ (send_effect_okOr _ _ _) fun c1 =>
    okOr_bind _ _ (send_effect_okOr _ _ _) fun c2 =>
    okOr_bind _ _ (send_effect_okOr _ _ _) fun c3 => okOr_ok _

/-- Classification of the waveform switch. -/
theorem t500rs_waveform_okOr (t : Nat) : OkOr (t500rs_waveform t) := by
  unfold t500rs_waveform
  repeat' split
  all_goals first
    | exact okOr_ok _
    | exact Or.inr (Or.inl rfl)

/-- Classification of the periodic encoder pipeline. -/
theorem upload_periodic_okOr (a : Bool) (s : T500rsEffectState) :
    OkOr (t500rs_upload_periodic ⟨a, true⟩ s) := by
  unfold t500rs_upload_periodic
  exact okOr_bind _ _ (t500rs_waveform_okOr _) fun w =>
    okOr_bind _ _ (send_effect_okOr _ _ _) fun c1 =>
    okOr_bind _ _ (send_effect_okOr _ _ _) fun c2 =>
    okOr_bind _ _ (send_effect_okOr _ _ _) fun c3 => okOr_ok _

/-- Classification of the basic condition encoder pipeline. -/
theorem upload_condition_okOr (a : Bool) (s : T500rsEffectState) (et : Nat) :
    OkOr (t500rs_upload_condition ⟨a, true⟩ s et) := by
  unfold t500rs_upload_condition
  exact okOr_bind _ _ (send_effect_okOr _ _ _) fun c1 =>
    okOr_bind _ _ (send_effect_okOr _ _ _) fun c2 =>
    okOr_bind _ _ (send_effect_okOr _ _ _) fun c3 => okOr_ok _

/-- Classification of the extended condition encoder. -/
theorem upload_condition_extended_okOr (a : Bool) (s : T500rsEffectState)
    (et : Nat) : OkOr (t500rs_upload_condition_extended ⟨a, true⟩ s et) := by
  unfold t500rs_upload_condition_extended
  exact okOr_bind _ _ (send_effect_okOr _ _ _) fun c => okOr_ok _

/-- Classification of the inertia encoder. -/
theorem upload_inertia_okOr (a : Bool) (p : T500rsInertia) :
    OkOr (t500rs_upload_inertia ⟨a, true⟩ p) := by
  unfold t500rs_upload_inertia
  exact okOr_bind _ _ (send_effect_okOr _ _ _) fun c => okOr_ok _

/-- Classification of the envelope encoder. -/
theorem upload_envelope_okOr (a : Bool) (s : T500rsEffectState) :
    OkOr (t500rs_upload_envelope ⟨a, true⟩ s) := by
  unfold t500rs_upload_envelope
  exact okOr_bind _ _ (send_effect_okOr _ _ _) fun c1 =>
    okOr_bind _ _ (send_effect_okOr _ _ _) fun c2 => okOr_ok _

/-- Classification of the duration-configuration send. -/
theorem modify_duration_okOr (a : Bool) (s : T500rsEffectState) :
    OkOr (t500rs_modify_duration ⟨a, true⟩ s) := by
  unfold t500rs_modify_duration
  exact send_effect_okOr _ _ _

/-- Classification is preserved by the singleton-wrapping match used by the
combined-effect encoder. -/
theorem okOr_match_single (e : Except Int Command) (he : OkOr e) :
    OkOr (match e with
          | .error er => (.error er : Except Int (List Command))
          | .ok c => .ok [c]) := by
  rcases he with ⟨x, hx⟩ | hx | hx <;> rw [hx]
  · exact okOr_ok _
  · exact Or.inr (Or.inl rfl)
  · exact Or.inr (Or.inr rfl)

/-- Classification of the combined-effect encoder. -/
theorem upload_combined_okOr (a : Bool) (s : T500rsEffectState) :
    OkOr (t500rs_upload_combined ⟨a, true⟩ s) := by
  unfold t500rs_upload_combined
  split
  · exact Or.inr (Or.inl rfl)
  · split
    · exact Or.inr (Or.inl rfl)
    · exact okOr_match_single _ (send_effect_okOr _ _ _)

/-- Classification of the upload switch: an early return is -EINVAL or
-ENOMEM, and a fall-through ret value is itself classified. -/
theorem upload_effect_switch_okOr (a : Bool) (s : T500rsEffectState) :
    (∃ r, t500rs_upload_effect_switch ⟨a, true⟩ s = .ok r ∧ OkOr r) ∨
    t500rs_upload_effect_switch ⟨a, true⟩ s = .error (-EINVAL) ∨
    t500rs_upload_effect_switch ⟨a, true⟩ s = .error (-ENOMEM) := by
  unfold t500rs_upload_effect_switch
  split
  · rcases upload_constant_okOr a s with ⟨x, hx⟩ | hx | hx <;> rw [hx]
    · dsimp only
      split
      · rcases upload_envelope_okOr a s with ⟨y, hy⟩ | hy | hy <;> rw [hy]
        · exact Or.inl ⟨_, rfl, okOr_ok _⟩
        · exact Or.inr (Or.inl rfl)
        · exact Or.inr (Or.inr rfl)
      · exact Or.inl ⟨_, rfl, okOr_ok _⟩
    · exact Or.inr (Or.inl rfl)
    · exact Or.inr (Or.inr rfl)
  · split
    · rcases upload_ramp_okOr a s with ⟨x, hx⟩ | hx | hx <;> rw [hx]
      · dsimp only
        split
        · rcases upload_envelope_okOr a s with ⟨y, hy⟩ | hy | hy <;> rw [hy]
          · exact Or.inl ⟨_, rfl, okOr_ok _⟩
          · exact Or.inr (Or.inl rfl)
          · exact Or.inr (Or.inr rfl)
        · exact Or.inl ⟨_, rfl, okOr_ok _⟩
      · exact Or.inr (Or.inl rfl)
      · exact Or.inr (Or.inr rfl)
    · split
      · exact Or.inl ⟨_, rfl, upload_condition_okOr a s _⟩
      · split
        · exact Or.inl ⟨_, rfl, upload_condition_extended_okOr a s _⟩
        · split
          · exact Or.inl ⟨_, rfl, upload_condition_extended_okOr a s _⟩
          · split
            · exact Or.inl ⟨_, rfl, upload_inertia_okOr a _⟩
            · split
              · exact Or.inl ⟨_, rfl, upload_periodic_okOr a s⟩
              · exact Or.inr (Or.inl rfl)

/-- Classification of the whole upload pipeline. -/
theorem upload_effect_okOr (a : Bool) (s : T500rsEffectState) :
    OkOr (t500rs_upload_effect ⟨a, true⟩ s) := by
  unfold t500rs_upload_effect
  split
  · exact upload_combined_okOr a s
  · rcases upload_effect_switch_okOr a s with ⟨r, hr, hok⟩ | hx | hx
    · rw [hr]
      dsimp only
      split
      · rcases modify_duration_okOr a s with ⟨d, hd⟩ | hd | hd <;> rw [hd]
        · exact okOr_ok _
        · exact Or.inr (Or.inl rfl)
        · exact Or.inr (Or.inr rfl)
      · exact hok
    · rw [hx]
      exact Or.inr (Or.inl rfl)
    · rw [hx]
      exact Or.inr (Or.inr rfl)

/-- Classification of the play command send. -/
theorem play_effect_okOr (a : Bool) (s : T500rsEffectState) :
    OkOr (t500rs_play_effect ⟨a, true⟩ s) := by
  unfold t500rs_play_effect
  exact send_effect_okOr _ _ _

/-- Classification of the stop command send. -/
theorem stop_effect_okOr (a : Bool) (s : T500rsEffectState) :
    OkOr (t500rs_stop_effect ⟨a, true⟩ s) := by
  unfold t500rs_stop_effect
  exact send_effect_okOr _ _ _

/-- Classification of the queued-upload step. -/
theorem upload_phase_okOr (a : Bool) (s : T500rsEffectState) :
    OkOr (timerUploadPhase ⟨a, true⟩ s) := by
  unfold timerUploadPhase
  split
  · dsimp only
    rcases upload_effect_okOr a { s with queue_upload := false } with
      ⟨x, hx⟩ | hx | hx <;> rw [hx]
    · exact okOr_ok _
    · exact Or.inr (Or.inl rfl)
    · exact Or.inr (Or.inr rfl)
  · exact okOr_ok _

/-- Classification of the queued-start step. -/
theorem start_phase_okOr (a : Bool) (s : T500rsEffectState) :
    OkOr (timerStartPhase ⟨a, true⟩ s) := by
  unfold timerStartPhase
  split
  · dsimp only
    rcases play_effect_okOr a { s with queue_start := false, playing := true } with
      ⟨x, hx⟩ | hx | hx <;> rw [hx]
    · exact okOr_ok _
    · exact Or.inr (Or.inl rfl)
    · exact Or.inr (Or.inr rfl)
  · exact okOr_ok _

/-- Classification of the queued-stop step. -/
theorem stop_phase_okOr (a : Bool) (s : T500rsEffectState) :
    OkOr (timerStopPhase ⟨a, true⟩ s) := by
  unfold timerStopPhase
  split
  · dsimp only
    rcases stop_effect_okOr a { s with queue_stop := false, playing := false } with
      ⟨x, hx⟩ | hx | hx <;> rw [hx]
    · exact okOr_ok _
    · exact Or.inr (Or.inl rfl)
    · exact Or.inr (Or.inr rfl)
  · exact okOr_ok _

/-- Classification of one slot's scheduler pass. -/
theorem slot_step_okOr (a : Bool) (now : Nat) (s : T500rsEffectState) :
    OkOr (t500rs_timer_helper_slot ⟨a, true⟩ now s) := by
  unfold t500rs_timer_helper_slot
  rcases upload_phase_okOr a (timerExpirePhase now s) with
    ⟨⟨s1, cs1⟩, h1⟩ | h1 | h1 <;> rw [h1]
  · dsimp only
    rcases start_phase_okOr a s1 with ⟨⟨s2, cs2⟩, h2⟩ | h2 | h2 <;> rw [h2]
    · dsimp only
      rcases stop_phase_okOr a s2 with ⟨⟨s3, cs3⟩, h3⟩ | h3 | h3 <;> rw [h3]
      · exact okOr_ok _
      · exact Or.inr (Or.inl rfl)
      · exact Or.inr (Or.inr rfl)
    · exact Or.inr (Or.inl rfl)
    · exact Or.inr (Or.inr rfl)
  · exact Or.inr (Or.inl rfl)
  · exact Or.inr (Or.inr rfl)

/-- Classification of the whole scheduler tick over the state table. -/
theorem timer_helper_okOr (a : Bool) (now : Nat)
    (states : List T500rsEffectState) :
    OkOr (t500rs_timer_helper ⟨a, true⟩ now states) := by
  induction states with
  | nil => exact okOr_ok _
  | cons s rest ih =>
    have h0 : t500rs_timer_helper ⟨a, true⟩ now (s :: rest) =
        match t500rs_timer_helper_slot ⟨a, true⟩ now s with
        | .error e => .error e
        | .ok (s1, _) =>
          match t500rs_timer_helper ⟨a, true⟩ now rest with
          | .error e => .error e
          | .ok (rest1, mc) =>
            .ok (s1 :: rest1, if mc < s1.count then s1.count else mc) := rfl
    rw [h0]
    rcases slot_step_okOr a now s with ⟨⟨s1, cs⟩, hx⟩ | hx | hx <;> rw [hx]
    · dsimp only
      rcases ih with ⟨⟨r1, mc⟩, hy⟩ | hy | hy <;> rw [hy]
      · exact okOr_ok _
      · exact Or.inr (Or.inl rfl)
      · exact Or.inr (Or.inr rfl)
    · exact Or.inr (Or.inl rfl)
    · exact Or.inr (Or.inr rfl)

/-- C4: the low-level send returns 0 whenever the device lookup succeeds
(the HID transfer outcome is never observed); with the lookup succeeding,
t500rs_send_effect either succeeds or fails with the allocation error
-ENOMEM only; and the scheduler tick over any state table can then only
succeed or fail with -EINVAL (encoder validation) or -ENOMEM (allocation) -
a transport-error result is unreachable. -/
theorem C4_transport_error_unreachable :
    (∀ deviceOk : Bool, deviceOk = true → t500rs_send_int deviceOk = 0) ∧
    (∀ (a : Bool) (cid : Nat) (ps : List Nat),
      t500rs_send_effect ⟨a, true⟩ cid ps = .ok ⟨cid, ps⟩ ∨
      t500rs_send_effect ⟨a, true⟩ cid ps = .error (-ENOMEM)) ∧
    (∀ (a : Bool) (now : Nat) (states : List T500rsEffectState),
      (∃ r, t500rs_timer_helper ⟨a, true⟩ now states = .ok r) ∨
      t500rs_timer_helper ⟨a, true⟩ now states = .error (-EINVAL) ∨
      t500rs_timer_helper ⟨a, true⟩ now states = .error (-ENOMEM)) := by
  refine ⟨?_, ?_, ?_⟩
  · intro d hd
    rw [hd]
    rfl
  · intro a cid ps
    cases a
    · exact Or.inr rfl
    · exact Or.inl rfl
  · intro a now states
    exact timer_helper_okOr a now states

/-- Witness for C4 at concrete inputs: a successful lookup and allocation
give a successful send, and a tick over one default slot succeeds. -/
theorem C4_witness :
    t500rs_send_int true = 0 ∧
    (t500rs_send_effect ⟨true, true⟩ 1 [2] = .ok ⟨1, [2]⟩ ∨
     t500rs_send_effect ⟨true, true⟩ 1 [2] = .error (-ENOMEM)) ∧
    ((∃ r, t500rs_timer_helper ⟨true, true⟩ 0 [default] = .ok r) ∨
     t500rs_timer_helper ⟨true, true⟩ 0 [default] = .error (-EINVAL) ∨
     t500rs_timer_helper ⟨true, true⟩ 0 [default] = .error (-ENOMEM)) :=
  ⟨C4_transport_error_unreachable.1 true rfl,
   C4_transport_error_unreachable.2.1 true 1 [2],
   C4_transport_error_unreachable.2.2 true 0 [default]⟩
